import Mathlib

/-
Verification development for the FinGPT_Forecaster pipeline orchestration
core: the checkpointed phase orchestrator of cron_pipeline.py and the
disk-backed sliding-window rate limiter of rate_limiter.py.

The embedding is shallow: dates are modelled as integers (day numbers),
wall-clock timestamps of the rate limiter as integers, the file system as
explicit optional file-content values threaded through each function, and
a raised exception that escapes a function as an Option.none result.
External JSON parsing of metric payloads is a parameter of the functions
that call it, since the json library is external to the repository.
-/

/-! ## Checkpoint data model (pipeline_checkpoint.json) -/

/-- Parsed content of pipeline_checkpoint.json as a JSON object. Each field
is optional because a read checkpoint may lack any key. -/
structure CkptData where
  last_end_date : Option Int
  last_run_time : Option Int
  index_name : Option String
  dataset_paths : Option (List String)
deriving DecidableEq, Repr

/-- Content of the checkpoint file on disk: either text that json.load
rejects, or a parsed object. -/
inductive CkptFile
  | unparsable
  | parsed (d : CkptData)
deriving DecidableEq, Repr

/-- get_time_window of cron_pipeline.py. Arguments: weeks_back, the current
day number (datetime.now at day granularity), and the checkpoint file state
(none means the file does not exist). Returns ((start_date, end_date,
existing_dataset_paths), new file state). The KeyError raised by a missing
last_end_date key is caught before dataset_paths is ever read, so the
fallback branch always leaves existing_dataset_paths empty. The final write
always stores last_end_date = end_date and index_name = "dow", preserving
the existing_dataset_paths value in scope. -/
def get_time_window (weeks_back : Nat) (now : Int) (fs : Option CkptFile) :
    (Int × Int × List String) × Option CkptFile :=
  let end_date : Int := now
  let fallback : Int := now - 7 * (weeks_back : Int)
  let se : Int × List String :=
    match fs with
    | some (CkptFile.parsed d) =>
      match d.last_end_date with
      | some s => (s, d.dataset_paths.getD [])
      | none => (fallback, [])
    | some CkptFile.unparsable => (fallback, [])
    | none => (fallback, [])
  ((se.1, end_date, se.2),
    some (CkptFile.parsed ⟨some end_date, some now, some "dow", some se.2⟩))

/-- update_checkpoint_dataset_paths of cron_pipeline.py (source name has a
leading underscore). Reads the checkpoint if present, replaces only the
dataset_paths key, and writes back. If the existing file is unparsable,
json.load raises inside the try block, the except clause only logs, and the
file is left unchanged. -/
def update_checkpoint_dataset_paths (paths : List String) (fs : Option CkptFile) :
    Option CkptFile :=
  match fs with
  | none => some (CkptFile.parsed ⟨none, none, none, some paths⟩)
  | some CkptFile.unparsable => some CkptFile.unparsable
  | some (CkptFile.parsed d) =>
    some (CkptFile.parsed { d with dataset_paths := some paths })

/-! ## Sentinel log parsing -/

/-- Metric payloads are modelled as association lists of metric name to
value, standing in for the JSON objects emitted by train_lora.py. -/
abbrev Metrics := List (String × Int)

/-- Log lines are modelled as lists of characters so that the sentinel
tests and slicing compute inside the kernel. -/
abbrev Line := List Char

/-- Sentinel marker for evaluation metrics in the training log. -/
def evalSentinel : Line := "EVAL_METRICS_JSON:".toList

/-- Sentinel marker for the trained model output directory. -/
def modelSentinel : Line := "TRAINED_MODEL_PATH:".toList

/-- Python str.strip: remove leading and trailing whitespace. -/
def pyStrip (l : Line) : Line :=
  ((l.dropWhile Char.isWhitespace).reverse.dropWhile Char.isWhitespace).reverse

/-- Payload of an evaluation-metrics sentinel line:
line.split(sentinel, 1)[1].strip() for a line starting with the sentinel. -/
def evalPayload (line : Line) : String :=
  ⟨pyStrip (line.drop evalSentinel.length)⟩

/-- Payload of a model-path sentinel line. -/
def modelPayload (line : Line) : String :=
  ⟨pyStrip (line.drop modelSentinel.length)⟩

/-- Loop body of parse_eval_metrics of cron_pipeline.py: iterates over the
log lines keeping the metrics of the most recent EVAL_METRICS_JSON line.
A payload that json.loads rejects raises, the surrounding except clause
catches it, and the function returns the metrics accumulated so far; the
remaining lines are never scanned. jparse models json.loads, returning none
where it would raise. -/
def parse_eval_metrics_scan (jparse : String → Option Metrics) :
    List Line → Metrics → Metrics
  | [], acc => acc
  | line :: rest, acc =>
    if evalSentinel.isPrefixOf line then
      match jparse (evalPayload line) with
      | some m => parse_eval_metrics_scan jparse rest m
      | none => acc
    else
      parse_eval_metrics_scan jparse rest acc

/-- parse_eval_metrics of cron_pipeline.py (source name has a leading
underscore). If the log file is missing, open raises, the except clause
catches it, and the initial empty metrics are returned. -/
def parse_eval_metrics (jparse : String → Option Metrics)
    (file : Option (List Line)) : Metrics :=
  match file with
  | none => []
  | some lines => parse_eval_metrics_scan jparse lines []

/-- The TRAINED_MODEL_PATH scan inside step4_train_lora: the loop breaks at
the first line starting with the sentinel and takes its payload. -/
def findModelPathSentinel : List Line → Option String
  | [] => none
  | line :: rest =>
    if modelSentinel.isPrefixOf line then some (modelPayload line)
    else findModelPathSentinel rest

/-- Specification-side helper (spec wording, for comparison with the code):
the last line of the file starting with the evaluation sentinel. -/
def lastEvalLine : List Line → Option Line
  | [] => none
  | l :: ls =>
    match lastEvalLine ls with
    | some r => some r
    | none => if evalSentinel.isPrefixOf l then some l else none

/-- Specification-side helper: the first line of the file starting with the
model-path sentinel. -/
def firstModelLine : List Line → Option Line
  | [] => none
  | l :: ls =>
    if modelSentinel.isPrefixOf l then some l else firstModelLine ls

/-! ## Evaluation history (evaluation_history.json) -/

/-- One record of the evaluation history, merging the four inputs of the
recorder: run time, number of datasets, model path, and the metrics dict. -/
structure EvalEntry where
  run_time : Int
  num_datasets : Nat
  model_path : String
  metrics : Metrics
deriving DecidableEq, Repr

/-- Content of evaluation_history.json: unparsable text, or a parsed JSON
object whose history key is present with a list (some) or absent (none). -/
inductive HistFile
  | unparsable
  | parsed (history : Option (List EvalEntry))
deriving DecidableEq, Repr

/-- save_eval_history of cron_pipeline.py (source name has a leading
underscore). The whole body is wrapped in try/except, so the function never
raises; but if the existing file is unparsable, json.load raises before the
append, and if the parsed object has no history list, the subscript raises
before the append: in both cases the except clause only logs and the file
is left unchanged with no record appended. -/
def save_eval_history (run_time : Int) (num_datasets : Nat)
    (model_path : String) (metrics : Metrics) (fs : Option HistFile) :
    Option HistFile :=
  match fs with
  | none =>
    some (HistFile.parsed (some [⟨run_time, num_datasets, model_path, metrics⟩]))
  | some HistFile.unparsable => some HistFile.unparsable
  | some (HistFile.parsed none) => some (HistFile.parsed none)
  | some (HistFile.parsed (some h)) =>
    some (HistFile.parsed (some (h ++ [⟨run_time, num_datasets, model_path, metrics⟩])))

/-! ## Phase 1-3: data acquisition -/

/-- Outcome of the external data_pipeline main collaborator: it either
raises, or returns a dataset path (none models the Python None value). -/
inductive AcqOutcome
  | raises
  | returns (p : Option String)
deriving DecidableEq, Repr

/-- step1_to_3_data_pipeline of cron_pipeline.py: runs the acquisition
collaborator; if it raises, or returns a falsy path, or returns a path not
present on disk, the phase reports failure and the existing path list is
returned unchanged; on success the new path is appended to the cumulative
list. pathExists models os.path.exists. -/
def step1_to_3_data_pipeline (acq : AcqOutcome) (pathExists : String → Bool)
    (existing_dataset_paths : List String) : Bool × List String :=
  match acq with
  | AcqOutcome.raises => (false, existing_dataset_paths)
  | AcqOutcome.returns none => (false, existing_dataset_paths)
  | AcqOutcome.returns (some p) =>
    if p = "" || !pathExists p then (false, existing_dataset_paths)
    else (true, existing_dataset_paths ++ [p])

/-! ## Phase 4: training -/

/-- Environment of one training-phase execution: whether the spawned
training process exits zero, the log lines it streams to the training log
file, the os.path.isdir predicate, the entries of the ./finetuned_models
directory (none models a missing directory, where os.listdir raises
FileNotFoundError), and the modification time of each entry. -/
structure TrainEnv where
  exitZero : Bool
  logLines : List Line
  isDir : String → Bool
  modelsDirEntries : Option (List String)
  mtime : String → Int

/-- Python max(subdirs, key=os.path.getmtime): the first element with the
strictly greatest key wins. -/
def maxByMtime (mtime : String → Int) : String → List String → String
  | best, [] => best
  | best, x :: rest =>
    if mtime x > mtime best then maxByMtime mtime x rest
    else maxByMtime mtime best rest

/-- The sentinel-derived model path of step4_train_lora: usable only when
the sentinel is present, non-empty, and an existing directory (the Python
test is "if not (model_path and os.path.isdir(model_path))"). -/
def directModelPath (env : TrainEnv) : Option String :=
  match findModelPathSentinel env.logLines with
  | some p => if p ≠ "" && env.isDir p then some p else none
  | none => none

/-- step4_train_lora of cron_pipeline.py. Returns none when an exception
escapes the function (the only uncaught exception in scope is the
FileNotFoundError of os.listdir when ./finetuned_models is missing: the
except clause catches only subprocess.CalledProcessError). Otherwise
returns ((success, model_path), new history file state): a non-zero exit is
caught and reported as failure; with a zero exit the model path comes from
the first sentinel line if usable, else from the mtime fallback scan, and
an empty scan is reported as failure; on success the eval metrics are
parsed from the log and appended to the evaluation history. -/
def step4_train_lora (jparse : String → Option Metrics) (env : TrainEnv)
    (dataset_paths : List String) (run_time : Int) (histFs : Option HistFile) :
    Option ((Bool × Option String) × Option HistFile) :=
  if !env.exitZero then
    some ((false, none), histFs)
  else
    match directModelPath env with
    | some mp =>
      let metrics := parse_eval_metrics jparse (some env.logLines)
      some ((true, some mp),
        save_eval_history run_time dataset_paths.length mp metrics histFs)
    | none =>
      match env.modelsDirEntries with
      | none => none
      | some entries =>
        match entries.filter env.isDir with
        | [] => some ((false, none), histFs)
        | d :: rest =>
          let mp := maxByMtime env.mtime d rest
          let metrics := parse_eval_metrics jparse (some env.logLines)
          some ((true, some mp),
            save_eval_history run_time dataset_paths.length mp metrics histFs)

/-! ## Top-level sequencing and CLI -/

/-- Terminal outcome of one run_cron invocation that returns normally. -/
inductive RunOutcome
  | abortedData
  | abortedTraining
  | abortedDeployment
  | completed
deriving DecidableEq, Repr

/-- The world a run_cron invocation executes in: the current time, the
checkpoint file, the acquisition outcome, the file-system predicates, the
json parser, the training environment, the deployment outcome
(step5_deploy_model catches every exception and returns a boolean), and
the evaluation-history file. -/
structure World where
  now : Int
  ckptFs : Option CkptFile
  acq : AcqOutcome
  pathExists : String → Bool
  jparse : String → Option Metrics
  train : TrainEnv
  deployOk : Bool
  histFs : Option HistFile

/-- run_cron of cron_pipeline.py: time window, acquisition, checkpoint
dataset-path update, training, deployment, with each failed phase aborting
the rest by an early return (run_cron itself returns None in Python; the
model returns which outcome occurred together with the final checkpoint and
history file states). none models an exception escaping run_cron, which
happens exactly when step4_train_lora raises. -/
def run_cron (weeks_back : Nat) (w : World) :
    Option (RunOutcome × Option CkptFile × Option HistFile) :=
  let r1 := get_time_window weeks_back w.now w.ckptFs
  let fs1 := r1.2
  let existing := r1.1.2.2
  let r2 := step1_to_3_data_pipeline w.acq w.pathExists existing
  if !r2.1 then some (RunOutcome.abortedData, fs1, w.histFs)
  else
    let all_paths := r2.2
    let fs2 := update_checkpoint_dataset_paths all_paths fs1
    match step4_train_lora w.jparse w.train all_paths w.now w.histFs with
    | none => none
    | some ((ok4, _mp), hist1) =>
      if !ok4 then some (RunOutcome.abortedTraining, fs2, hist1)
      else if !w.deployOk then some (RunOutcome.abortedDeployment, fs2, hist1)
      else some (RunOutcome.completed, fs2, hist1)

/-- The __main__ block of cron_pipeline.py: without --run it prints the
usage line and performs no pipeline action; with --run it calls run_cron,
which never feeds into sys.exit, so the interpreter exits 0 whenever
run_cron returns (normally or after logging an abort) and exits 1 only when
an exception escapes. Result: (exit code, pipeline was run, usage printed). -/
def cron_pipeline_main (runFlag : Bool) (weeks_back : Nat) (w : World) :
    Nat × Bool × Bool :=
  if runFlag then
    match run_cron weeks_back w with
    | some _ => (0, true, false)
    | none => (1, true, false)
  else
    (0, false, true)

/-! ## Rate limiter (rate_limiter.py)

Sequential (single-process) model: timestamps are integers (time at integer granularity), the persistent
diskcache store for one service key is the list of timestamps, and during a
sleep no other process mutates the store, so a slept loop iteration resumes
with the same list at the advanced clock. -/

/-- A RateLimiter instance of rate_limiter.py. -/
structure RateLimiter where
  service_name : String
  max_calls : Nat
  period_seconds : ℤ

/-- The pruning comprehension: calls = [t for t in calls if now - t <
period_seconds]. -/
def pruneCalls (period_seconds : ℤ) (now : ℤ) (calls : List ℤ) : List ℤ :=
  calls.filter (fun t => decide (now - t < period_seconds))

/-- Result of one iteration of the while-True loop of wait_if_needed. -/
inductive LimiterStep
  | admitted (calls : List ℤ) (now : ℤ)
  | slept (now : ℤ)
deriving DecidableEq, Repr

/-- One iteration of the wait_if_needed loop: read and prune the stored
timestamps; if fewer than max_calls remain, append now, write back and
return; otherwise compute sleep_time from the oldest surviving timestamp
and sleep when positive. Indexing calls[0] on an empty pruned list raises
IndexError in Python (only possible with max_calls = 0); that is modelled
as none. -/
def wait_step (rl : RateLimiter) (calls : List ℤ) (now : ℤ) :
    Option LimiterStep :=
  let pruned := pruneCalls rl.period_seconds now calls
  if pruned.length < rl.max_calls then
    some (LimiterStep.admitted (pruned ++ [now]) now)
  else
    match pruned with
    | [] => none
    | t0 :: _ =>
      let sleep_time := rl.period_seconds - (now - t0)
      some (LimiterStep.slept (now + max sleep_time 0))

/-- wait_if_needed of rate_limiter.py, with fuel bounding the number of
loop iterations. Returns the written-back timestamp list and the admission
instant. In the sequential model the clock advances by exactly the slept
duration between iterations. -/
def wait_if_needed (rl : RateLimiter) : Nat → List ℤ → ℤ → Option (List ℤ × ℤ)
  | 0, _, _ => none
  | fuel + 1, calls, now =>
    match wait_step rl calls now with
    | none => none
    | some (LimiterStep.admitted calls1 now1) => some (calls1, now1)
    | some (LimiterStep.slept now1) => wait_if_needed rl fuel calls now1

/-- Stored timestamp lists reachable for a service key under sequential
use: the store starts absent (cache.get default []), and each completed
wait_if_needed call replaces it by the written-back list. -/
inductive Reachable (rl : RateLimiter) : List ℤ → Prop
  | init : Reachable rl []
  | step {calls calls1 : List ℤ} {now now1 : ℤ} {fuel : Nat} :
      Reachable rl calls →
      wait_if_needed rl fuel calls now = some (calls1, now1) →
      Reachable rl calls1

/-! ## Sanity examples (concrete evaluations of the embedding) -/

example :
    get_time_window 2 100 none =
      ((86, 100, []), some (CkptFile.parsed ⟨some 100, some 100, some "dow", some []⟩)) := by
  decide

example :
    get_time_window 2 100 (some (CkptFile.parsed ⟨some 93, some 93, some "dow", some ["a"]⟩)) =
      ((93, 100, ["a"]), some (CkptFile.parsed ⟨some 100, some 100, some "dow", some ["a"]⟩)) := by
  decide

example :
    get_time_window 3 100 (some CkptFile.unparsable) =
      ((79, 100, []), some (CkptFile.parsed ⟨some 100, some 100, some "dow", some []⟩)) := by
  decide


example :
    parse_eval_metrics (fun s => if s = "G" then some [("bin_acc", 1)] else none)
      (some ["step".toList, "EVAL_METRICS_JSON: G".toList, "done".toList]) =
      [("bin_acc", 1)] := by
  decide

example :
    parse_eval_metrics (fun s => if s = "G" then some [("bin_acc", 1)] else none)
      (some ["EVAL_METRICS_JSON: G".toList, "EVAL_METRICS_JSON: B".toList]) =
      [("bin_acc", 1)] := by
  decide

example :
    findModelPathSentinel
      ["x".toList, "TRAINED_MODEL_PATH: a".toList, "TRAINED_MODEL_PATH: b".toList] =
      some "a" := by
  decide

example : wait_if_needed ⟨"t", 2, 2⟩ 1 [] 0 = some ([0], 0) := by decide

example : wait_if_needed ⟨"t", 2, 2⟩ 1 [0] 1 = some ([0, 1], 1) := by decide

example : wait_if_needed ⟨"t", 2, 2⟩ 2 [0, 1] 1 = some ([1, 2], 2) := by decide

/-- Inversion of an admitted loop iteration: admission happens at the entry
instant, the written list is the pruned list with the entry instant
appended, and the pruned count was below max_calls. -/
theorem wait_step_eq_admitted {rl : RateLimiter} {calls : List ℤ} {now : ℤ}
    {c : List ℤ} {n : ℤ}
    (h : wait_step rl calls now = some (LimiterStep.admitted c n)) :
    c = pruneCalls rl.period_seconds now calls ++ [now] ∧ n = now ∧
      (pruneCalls rl.period_seconds now calls).length < rl.max_calls := by
  unfold wait_step at h
  by_cases hlt : (pruneCalls rl.period_seconds now calls).length < rl.max_calls
  · simp only [hlt, if_true, Option.some.injEq, LimiterStep.admitted.injEq] at h
    exact ⟨h.1.symm, h.2.symm, hlt⟩
  · simp only [hlt, if_false] at h
    cases hp : pruneCalls rl.period_seconds now calls with
    | nil => rw [hp] at h; exact absurd h (by simp)
    | cons t0 rest => rw [hp] at h; exact absurd h (by simp)

/-- Inversion of a slept loop iteration: the pruned list was full and
nonempty, and the clock advances by the computed sleep time. -/
theorem wait_step_eq_slept {rl : RateLimiter} {calls : List ℤ} {now n1 : ℤ}
    (h : wait_step rl calls now = some (LimiterStep.slept n1)) :
    ∃ t0 rest, pruneCalls rl.period_seconds now calls = t0 :: rest ∧
      ¬ (pruneCalls rl.period_seconds now calls).length < rl.max_calls ∧
      n1 = now + max (rl.period_seconds - (now - t0)) 0 := by
  unfold wait_step at h
  by_cases hlt : (pruneCalls rl.period_seconds now calls).length < rl.max_calls
  · rw [if_pos hlt] at h; exact absurd h (by simp)
  · rw [if_neg hlt] at h
    cases hp : pruneCalls rl.period_seconds now calls with
    | nil => rw [hp] at h; exact absurd h (by simp)
    | cons t0 rest =>
      rw [hp] at h
      simp only [Option.some.injEq, LimiterStep.slept.injEq] at h
      exact ⟨t0, rest, rfl, hp ▸ hlt, h.symm⟩

/-- Shape of every successful wait_if_needed call: the written-back list is
the pruned list at the admission instant with that instant appended, and
the pruned count was below max_calls. -/
theorem wait_if_needed_shape {rl : RateLimiter} {fuel : Nat}
    {calls calls1 : List ℤ} {now now1 : ℤ}
    (h : wait_if_needed rl fuel calls now = some (calls1, now1)) :
    calls1 = pruneCalls rl.period_seconds now1 calls ++ [now1] ∧
      (pruneCalls rl.period_seconds now1 calls).length < rl.max_calls := by
  induction fuel generalizing now with
  | zero => exact absurd h (by simp [wait_if_needed])
  | succ n ih =>
    rw [wait_if_needed] at h
    cases hs : wait_step rl calls now with
    | none => rw [hs] at h; exact absurd h (by simp)
    | some st =>
      cases st with
      | admitted c m =>
        rw [hs] at h
        simp only [Option.some.injEq, Prod.mk.injEq] at h
        obtain ⟨hc, hm⟩ := h
        obtain ⟨h1, h2, h3⟩ := wait_step_eq_admitted hs
        subst hc; subst hm; subst h2
        exact ⟨h1, h3⟩
      | slept m =>
        rw [hs] at h
        exact ih h

/-- The oldest timestamp surviving the pruning is strictly younger than one
period, so the computed sleep time is strictly positive. -/
theorem pruned_head_sleep_pos {per now t0 : ℤ} {calls rest : List ℤ}
    (h : pruneCalls per now calls = t0 :: rest) : 0 < per - (now - t0) := by
  have hmem : t0 ∈ pruneCalls per now calls := by
    rw [h]; exact List.mem_cons_self _ _
  have hp := List.of_mem_filter hmem
  have h2 : now - t0 < per := by simpa using hp
  omega

/-- Sliding-window invariant over all sequentially reachable stores: at
every observation instant, at most max_calls recorded admissions lie inside
the window. -/
theorem reachable_prune_length_le {rl : RateLimiter} {store : List ℤ}
    (h : Reachable rl store) (obs : ℤ) :
    (pruneCalls rl.period_seconds obs store).length ≤ rl.max_calls := by
  induction h with
  | init => simp [pruneCalls]
  | @step calls calls1 now now1 fuel _hr hw _ih =>
    obtain ⟨hc, hlen⟩ := wait_if_needed_shape hw
    subst hc
    rw [pruneCalls, List.filter_append]
    rw [List.length_append]
    have h1 : (List.filter (fun t => decide (obs - t < rl.period_seconds))
        (pruneCalls rl.period_seconds now1 calls)).length
        ≤ (pruneCalls rl.period_seconds now1 calls).length :=
      List.length_filter_le _ _
    have h2 : (List.filter (fun t => decide (obs - t < rl.period_seconds))
        [now1]).length ≤ 1 := by
      have := List.length_filter_le (fun t => decide (obs - t < rl.period_seconds)) [now1]
      simpa using this
    omega

/-- Immediate admission: when the pruned count is below max_calls, a single
loop iteration appends the current instant and returns. -/
theorem wait_if_needed_immediate {rl : RateLimiter} {calls : List ℤ}
    {now : ℤ} (fuel : Nat)
    (h : (pruneCalls rl.period_seconds now calls).length < rl.max_calls) :
    wait_if_needed rl (fuel + 1) calls now =
      some (pruneCalls rl.period_seconds now calls ++ [now], now) := by
  rw [wait_if_needed]
  unfold wait_step
  simp [h]

/-- Full window: when the pruned count has reached max_calls, the iteration
sleeps exactly period_seconds - (now - oldest) and the loop re-runs the
whole check at the advanced clock with the store unchanged. -/
theorem wait_if_needed_sleeps {rl : RateLimiter} {calls : List ℤ}
    {now t0 : ℤ} {rest : List ℤ} (fuel : Nat)
    (hp : pruneCalls rl.period_seconds now calls = t0 :: rest)
    (hge : ¬ (pruneCalls rl.period_seconds now calls).length < rl.max_calls) :
    0 < rl.period_seconds - (now - t0) ∧
      wait_if_needed rl (fuel + 1) calls now =
        wait_if_needed rl fuel calls (now + (rl.period_seconds - (now - t0))) := by
  have hpos := pruned_head_sleep_pos hp
  refine ⟨hpos, ?_⟩
  rw [wait_if_needed]
  unfold wait_step
  rw [hp] at hge ⊢
  simp only [hge, if_false]
  rw [max_eq_left hpos.le]

/-! ## Sentinel scan lemmas -/

/-- The last evaluation-sentinel line is a member of the file and starts
with the sentinel. -/
theorem lastEvalLine_mem {ls : List Line} {r : Line}
    (h : lastEvalLine ls = some r) :
    r ∈ ls ∧ evalSentinel.isPrefixOf r = true := by
  induction ls with
  | nil => exact absurd h (by simp [lastEvalLine])
  | cons l ls ih =>
    rw [lastEvalLine] at h
    cases hl : lastEvalLine ls with
    | some r2 =>
      rw [hl] at h
      simp only [Option.some.injEq] at h
      subst h
      obtain ⟨hm, hp⟩ := ih hl
      exact ⟨List.mem_cons_of_mem _ hm, hp⟩
    | none =>
      rw [hl] at h
      by_cases hpre : evalSentinel.isPrefixOf l
      · rw [if_pos hpre] at h
        simp only [Option.some.injEq] at h
        subst h
        exact ⟨List.mem_cons_self _ _, hpre⟩
      · rw [if_neg hpre] at h
        exact absurd h (by simp)

/-- When every evaluation-sentinel payload in the file parses, the scan
returns the parsed payload of the last sentinel line, or the accumulator
when no sentinel line exists. -/
theorem parse_eval_metrics_scan_all_parse (jparse : String → Option Metrics)
    (lines : List Line) (acc : Metrics)
    (hok : ∀ l ∈ lines, evalSentinel.isPrefixOf l = true →
      (jparse (evalPayload l)).isSome = true) :
    parse_eval_metrics_scan jparse lines acc =
      (((lastEvalLine lines).map evalPayload).bind jparse).getD acc := by
  induction lines generalizing acc with
  | nil => simp [parse_eval_metrics_scan, lastEvalLine]
  | cons l ls ih =>
    have hok_tail : ∀ x ∈ ls, evalSentinel.isPrefixOf x = true →
        (jparse (evalPayload x)).isSome = true :=
      fun x hx => hok x (List.mem_cons_of_mem _ hx)
    rw [parse_eval_metrics_scan, lastEvalLine]
    by_cases hpre : evalSentinel.isPrefixOf l
    · obtain ⟨m, hm⟩ := Option.isSome_iff_exists.mp
        (hok l (List.mem_cons_self _ _) hpre)
      rw [if_pos hpre, hm]
      dsimp only
      rw [ih m hok_tail]
      cases hl : lastEvalLine ls with
      | some r =>
        obtain ⟨hrm, hrp⟩ := lastEvalLine_mem hl
        obtain ⟨mr, hmr⟩ := Option.isSome_iff_exists.mp
          (hok_tail r hrm hrp)
        simp [hmr]
      | none =>
        dsimp only
        rw [if_pos hpre]
        simp [hm]
    · rw [if_neg hpre]
      rw [ih acc hok_tail]
      cases hl : lastEvalLine ls with
      | some r => simp
      | none => simp [hpre]

/-- The model-path extraction in step4_train_lora returns the payload of
the first matching line (the loop breaks at the first sentinel). -/
theorem findModelPathSentinel_eq_first (lines : List Line) :
    findModelPathSentinel lines = (firstModelLine lines).map modelPayload := by
  induction lines with
  | nil => simp [findModelPathSentinel, firstModelLine]
  | cons l ls ih =>
    rw [findModelPathSentinel, firstModelLine]
    by_cases hpre : modelSentinel.isPrefixOf l
    · rw [if_pos hpre, if_pos hpre]; rfl
    · rw [if_neg hpre, if_neg hpre]; exact ih

/-! ## Claim theorems -/

/-- C1: for the rate limiter under sequential (single-process) use, every
store reachable by a sequence of admit calls satisfies the sliding-window
bound at every observation instant: at most max_calls recorded admission
timestamps lie within the last period_seconds. An admit call appends its
timestamp and returns immediately when the pruned count is below max_calls;
otherwise the iteration sleeps period_seconds - (now - oldest_timestamp),
a positive duration, and re-runs the entire check at the advanced clock
before admitting. -/
theorem rate_limiter_admission_invariant (rl : RateLimiter)
    (store calls : List ℤ) (now obs : ℤ) (fuel : Nat)
    (hreach : Reachable rl store) :
    (pruneCalls rl.period_seconds obs store).length ≤ rl.max_calls ∧
    ((pruneCalls rl.period_seconds now calls).length < rl.max_calls →
      wait_if_needed rl (fuel + 1) calls now =
        some (pruneCalls rl.period_seconds now calls ++ [now], now)) ∧
    (∀ t0 rest, pruneCalls rl.period_seconds now calls = t0 :: rest →
      ¬ (pruneCalls rl.period_seconds now calls).length < rl.max_calls →
      0 < rl.period_seconds - (now - t0) ∧
      wait_if_needed rl (fuel + 1) calls now =
        wait_if_needed rl fuel calls (now + (rl.period_seconds - (now - t0)))) :=
  ⟨reachable_prune_length_le hreach obs,
   fun h => wait_if_needed_immediate fuel h,
   fun _t0 _rest hp hge => wait_if_needed_sleeps fuel hp hge⟩

/-- C1 witness: the store [0, 1] is reachable for the test configuration
max_calls = 2, period_seconds = 2 by two immediate admissions, the bound
holds when observed at instant 5, and a third call at instant 3 admits
immediately after pruning. -/
theorem rate_limiter_admission_invariant_witness :
    (pruneCalls (2 : ℤ) 5 [0, 1]).length ≤ 2 ∧
    wait_if_needed ⟨"test_basic", 2, 2⟩ 1 [1, 2] 3 =
      some (pruneCalls (2 : ℤ) 3 [1, 2] ++ [3], 3) := by
  have h1 : wait_if_needed ⟨"test_basic", 2, 2⟩ 1 [] 0 = some ([0], 0) := by decide
  have h2 : wait_if_needed ⟨"test_basic", 2, 2⟩ 1 [0] 1 = some ([0, 1], 1) := by decide
  have hc := rate_limiter_admission_invariant ⟨"test_basic", 2, 2⟩ [0, 1] [1, 2] 3 5 0
    (Reachable.step (Reachable.step Reachable.init h1) h2)
  exact ⟨hc.1, hc.2.1 (by decide)⟩

/-- C2: every window computation sets its end to the current time and
writes back a checkpoint whose boundary equals that end (and whose
dataset_paths preserve the returned artifact list), and a subsequent
computation reading that checkpoint uses the recorded boundary as its new
start, so consecutive windows share their boundary. -/
theorem consecutive_windows_nonoverlap (w1 w2 : Nat) (n1 n2 : Int)
    (fs : Option CkptFile) :
    (get_time_window w1 n1 fs).1.2.1 = n1 ∧
    (get_time_window w1 n1 fs).2 =
      some (CkptFile.parsed ⟨some n1, some n1, some "dow",
        some (get_time_window w1 n1 fs).1.2.2⟩) ∧
    (get_time_window w2 n2 (get_time_window w1 n1 fs).2).1.1 = n1 :=
  ⟨rfl, rfl, rfl⟩

/-- C3 counterexample: a checkpoint that parses but lacks the boundary
field, with a salvageable dataset_paths value ["a"]: get_time_window
returns the empty artifact list, not the salvaged one, because the KeyError
on the boundary field is raised before dataset_paths is read. -/
theorem ckpt_salvage_counterexample :
    (get_time_window 2 0
      (some (CkptFile.parsed ⟨none, none, none, some ["a"]⟩))).1.2.2 ≠ ["a"] ∧
    (get_time_window 2 0
      (some (CkptFile.parsed ⟨none, none, none, some ["a"]⟩))).1.2.2 = [] := by
  exact ⟨by decide, by decide⟩

/-- C3 amended: for every malformed checkpoint file (unparsable, or parsed
without the boundary field) get_time_window does not raise (the caught
malformations are modelled totally), falls back to the lookback window
start = now - 7 * weeks_back days, and always returns the empty artifact
list: nothing is salvaged from a malformed checkpoint, because the boundary
field is read before the artifact list; the rewritten checkpoint then
records the empty list. -/
theorem ckpt_malformed_fallback (weeks : Nat) (now : Int)
    (fs : Option CkptFile)
    (h : fs = some CkptFile.unparsable ∨
      ∃ d, fs = some (CkptFile.parsed d) ∧ d.last_end_date = none) :
    (get_time_window weeks now fs).1 = (now - 7 * (weeks : Int), now, []) ∧
    (get_time_window weeks now fs).2 =
      some (CkptFile.parsed ⟨some now, some now, some "dow", some []⟩) := by
  rcases h with h | ⟨d, hfs, hd⟩
  · subst h; exact ⟨rfl, rfl⟩
  · subst hfs
    refine ⟨?_, ?_⟩ <;> simp [get_time_window, hd]

/-- C3 witness: the amended fallback at the unparsable checkpoint. -/
theorem ckpt_malformed_fallback_witness :
    (get_time_window 2 100 (some CkptFile.unparsable)).1 =
      (100 - 7 * ((2 : Nat) : Int), 100, []) ∧
    (get_time_window 2 100 (some CkptFile.unparsable)).2 =
      some (CkptFile.parsed ⟨some 100, some 100, some "dow", some []⟩) :=
  ckpt_malformed_fallback 2 100 (some CkptFile.unparsable) (Or.inl rfl)

/-- Helper: when every evaluation-sentinel payload of the prefix parses and
the next line is a sentinel whose payload is rejected, the scan stops there
and returns the last previously parsed payload (or the accumulator when the
prefix holds no sentinel); the lines after the malformed one are ignored. -/
theorem parse_eval_metrics_scan_stops (jparse : String → Option Metrics)
    (pre : List Line) (bad : Line) (rest : List Line) (acc : Metrics)
    (hbad1 : evalSentinel.isPrefixOf bad = true)
    (hbad2 : jparse (evalPayload bad) = none)
    (hok : ∀ l ∈ pre, evalSentinel.isPrefixOf l = true →
      (jparse (evalPayload l)).isSome = true) :
    parse_eval_metrics_scan jparse (pre ++ bad :: rest) acc =
      (((lastEvalLine pre).map evalPayload).bind jparse).getD acc := by
  induction pre generalizing acc with
  | nil =>
    rw [List.nil_append, parse_eval_metrics_scan, if_pos hbad1, hbad2]
    simp [lastEvalLine]
  | cons l ls ih =>
    have hok_tail : ∀ x ∈ ls, evalSentinel.isPrefixOf x = true →
        (jparse (evalPayload x)).isSome = true :=
      fun x hx => hok x (List.mem_cons_of_mem _ hx)
    rw [List.cons_append, parse_eval_metrics_scan, lastEvalLine]
    by_cases hpre : evalSentinel.isPrefixOf l
    · obtain ⟨m, hm⟩ := Option.isSome_iff_exists.mp
        (hok l (List.mem_cons_self _ _) hpre)
      rw [if_pos hpre, hm]
      dsimp only
      rw [ih m hok_tail]
      cases hl : lastEvalLine ls with
      | some r =>
        obtain ⟨hrm, hrp⟩ := lastEvalLine_mem hl
        obtain ⟨mr, hmr⟩ := Option.isSome_iff_exists.mp (hok_tail r hrm hrp)
        simp [hmr]
      | none =>
        dsimp only
        rw [if_pos hpre]
        simp [hm]
    · rw [if_neg hpre]
      rw [ih acc hok_tail]
      cases hl : lastEvalLine ls with
      | some r => simp
      | none => simp [hpre]

/-- C4 counterexample: a log with two artifact-path sentinel lines with
different payloads: extraction returns the payload of the first matching
line, not the last, because the scan loop breaks at the first match. -/
theorem model_path_sentinel_counterexample :
    findModelPathSentinel
      ["TRAINED_MODEL_PATH: a".toList, "TRAINED_MODEL_PATH: b".toList] ≠
      some "b" ∧
    findModelPathSentinel
      ["TRAINED_MODEL_PATH: a".toList, "TRAINED_MODEL_PATH: b".toList] =
      some "a" := by
  exact ⟨by decide, by decide⟩

/-- C4 amended: sentinel extraction is last-match-wins for the
metrics-payload marker (provided every matching payload parses: the parsed
value of the last EVAL_METRICS_JSON line is returned, empty when none
exists) but first-match-wins for the artifact-path marker, whose scan loop
breaks at the first TRAINED_MODEL_PATH line. -/
theorem sentinel_extraction_conventions (jparse : String → Option Metrics)
    (lines : List Line)
    (hok : ∀ l ∈ lines, evalSentinel.isPrefixOf l = true →
      (jparse (evalPayload l)).isSome = true) :
    parse_eval_metrics jparse (some lines) =
      (((lastEvalLine lines).map evalPayload).bind jparse).getD [] ∧
    findModelPathSentinel lines = (firstModelLine lines).map modelPayload :=
  ⟨parse_eval_metrics_scan_all_parse jparse lines [] hok,
   findModelPathSentinel_eq_first lines⟩

/-- C4 witness: a log with two metrics sentinel lines, both parsing, and
two artifact-path sentinel lines: the second metrics payload wins and the
first artifact path wins. -/
theorem sentinel_extraction_conventions_witness :
    parse_eval_metrics
      (fun s => if s = "G" then some [("bin_acc", 0)]
        else if s = "H" then some [("bin_acc", 1)] else none)
      (some ["EVAL_METRICS_JSON: G".toList, "EVAL_METRICS_JSON: H".toList,
        "TRAINED_MODEL_PATH: a".toList, "TRAINED_MODEL_PATH: b".toList]) =
      (((lastEvalLine ["EVAL_METRICS_JSON: G".toList,
          "EVAL_METRICS_JSON: H".toList, "TRAINED_MODEL_PATH: a".toList,
          "TRAINED_MODEL_PATH: b".toList]).map evalPayload).bind
        (fun s => if s = "G" then some [("bin_acc", 0)]
          else if s = "H" then some [("bin_acc", 1)] else none)).getD [] ∧
    findModelPathSentinel ["EVAL_METRICS_JSON: G".toList,
        "EVAL_METRICS_JSON: H".toList, "TRAINED_MODEL_PATH: a".toList,
        "TRAINED_MODEL_PATH: b".toList] =
      (firstModelLine ["EVAL_METRICS_JSON: G".toList,
        "EVAL_METRICS_JSON: H".toList, "TRAINED_MODEL_PATH: a".toList,
        "TRAINED_MODEL_PATH: b".toList]).map modelPayload :=
  sentinel_extraction_conventions _ _ (by decide)

/-- C5 counterexample: a well-formed metrics sentinel line followed by a
malformed one: the parser returns the earlier parsed metrics, not the empty
result the claim requires regardless of earlier well-formed lines. -/
theorem metrics_malformed_counterexample :
    parse_eval_metrics
      (fun s => if s = "G" then some [("bin_acc", 1)] else none)
      (some ["EVAL_METRICS_JSON: G".toList, "EVAL_METRICS_JSON: B".toList]) ≠
      [] ∧
    parse_eval_metrics
      (fun s => if s = "G" then some [("bin_acc", 1)] else none)
      (some ["EVAL_METRICS_JSON: G".toList, "EVAL_METRICS_JSON: B".toList]) =
      [("bin_acc", 1)] := by
  exact ⟨by decide, by decide⟩

/-- C5 amended: metrics extraction never raises (the except clause catches
the parse failure); on reaching the first sentinel line whose payload is
malformed the scan stops and returns the metrics of the last well-formed
sentinel line before it, which is the empty result only when no earlier
sentinel line parsed. -/
theorem metrics_malformed_returns_last_good (jparse : String → Option Metrics)
    (pre : List Line) (bad : Line) (rest : List Line)
    (hbad1 : evalSentinel.isPrefixOf bad = true)
    (hbad2 : jparse (evalPayload bad) = none)
    (hok : ∀ l ∈ pre, evalSentinel.isPrefixOf l = true →
      (jparse (evalPayload l)).isSome = true) :
    parse_eval_metrics jparse (some (pre ++ bad :: rest)) =
      (((lastEvalLine pre).map evalPayload).bind jparse).getD [] :=
  parse_eval_metrics_scan_stops jparse pre bad rest [] hbad1 hbad2 hok

/-- C5 witness: one parsed sentinel before the malformed one: the earlier
metrics are returned. -/
theorem metrics_malformed_returns_last_good_witness :
    parse_eval_metrics
      (fun s => if s = "G" then some [("bin_acc", 1)] else none)
      (some (["EVAL_METRICS_JSON: G".toList] ++
        "EVAL_METRICS_JSON: B".toList :: ["tail".toList])) =
      (((lastEvalLine ["EVAL_METRICS_JSON: G".toList]).map evalPayload).bind
        (fun s => if s = "G" then some [("bin_acc", 1)] else none)).getD [] :=
  metrics_malformed_returns_last_good _ _ _ _ (by decide) (by decide) (by decide)

/-- C6 counterexample: with an existing but unparsable history file the
recorder appends nothing: json.load raises inside the try block before the
append, the except clause only logs, and the file is left unchanged, so the
claimed one-record history is not produced. -/
theorem history_corrupt_counterexample :
    save_eval_history 0 1 "m" [] (some HistFile.unparsable) ≠
      some (HistFile.parsed (some [⟨0, 1, "m", []⟩])) ∧
    save_eval_history 0 1 "m" [] (some HistFile.unparsable) =
      some HistFile.unparsable := by
  exact ⟨by decide, by decide⟩

/-- C6 amended: the recorder never raises; when the history file is absent
it initializes the history and appends exactly one record merging the four
inputs, and when the file parses to an object with a history list it
appends exactly one such record leaving all prior entries unchanged; but
when the file is unparsable, or parses without a history list, it leaves
the file unchanged and records nothing. -/
theorem history_append_behavior (rt : Int) (nd : Nat) (mp : String)
    (m : Metrics) (h : List EvalEntry) :
    save_eval_history rt nd mp m none =
      some (HistFile.parsed (some [⟨rt, nd, mp, m⟩])) ∧
    save_eval_history rt nd mp m (some (HistFile.parsed (some h))) =
      some (HistFile.parsed (some (h ++ [⟨rt, nd, mp, m⟩]))) ∧
    save_eval_history rt nd mp m (some HistFile.unparsable) =
      some HistFile.unparsable ∧
    save_eval_history rt nd mp m (some (HistFile.parsed none)) =
      some (HistFile.parsed none) :=
  ⟨rfl, rfl, rfl, rfl⟩

/-- C7 counterexample: training exits zero, the log holds no artifact-path
sentinel, and the output-artifacts directory is missing: os.listdir raises
FileNotFoundError, which the except clause (catching only
CalledProcessError) does not stop, so the phase raises (modelled as none)
instead of returning a failure result. -/
theorem train_missing_dir_counterexample :
    step4_train_lora (fun _ => none)
      ⟨true, [], fun _ => false, none, fun _ => 0⟩ [] 0 none = none := rfl

/-- C7 amended: training failure is surfaced as a returned failure result
when the training process exits non-zero, and when it exits zero with no
usable artifact-path sentinel and the fallback scan of an existing
output-artifacts directory finds no subdirectories; but when that directory
is itself missing, the fallback scan raises FileNotFoundError out of the
phase (only the CalledProcessError of the training process is caught). -/
theorem train_failure_surfacing (jparse : String → Option Metrics)
    (env : TrainEnv) (paths : List String) (rt : Int)
    (hist : Option HistFile) :
    (env.exitZero = false →
      step4_train_lora jparse env paths rt hist = some ((false, none), hist)) ∧
    (env.exitZero = true → directModelPath env = none →
      ∀ es, env.modelsDirEntries = some es → es.filter env.isDir = [] →
      step4_train_lora jparse env paths rt hist = some ((false, none), hist)) ∧
    (env.exitZero = true → directModelPath env = none →
      env.modelsDirEntries = none →
      step4_train_lora jparse env paths rt hist = none) := by
  refine ⟨fun h1 => ?_, fun h1 h2 es h3 h4 => ?_, fun h1 h2 h3 => ?_⟩
  · simp [step4_train_lora, h1]
  · simp [step4_train_lora, h1, h2, h3, h4]
  · simp [step4_train_lora, h1, h2, h3]

/-- C7 witness: a non-zero training exit is returned as failure with the
history untouched. -/
theorem train_failure_surfacing_witness :
    step4_train_lora (fun _ => none)
      ⟨false, [], fun _ => false, some [], fun _ => 0⟩ [] 0 none =
      some ((false, none), none) :=
  (train_failure_surfacing (fun _ => none)
    ⟨false, [], fun _ => false, some [], fun _ => 0⟩ [] 0 none).1 rfl

/-- C8 counterexample: with the run flag set in a world where the
acquisition collaborator raises, the run aborts at the data phase, yet the
process exit code is 0: run_cron only logs the abort and returns, and no
phase outcome ever reaches sys.exit. -/
theorem cli_exit_code_counterexample :
    run_cron 2 ⟨0, none, AcqOutcome.raises, fun _ => false, fun _ => none,
        ⟨true, [], fun _ => false, some [], fun _ => 0⟩, false, none⟩ =
      some (RunOutcome.abortedData,
        some (CkptFile.parsed ⟨some 0, some 0, some "dow", some []⟩), none) ∧
    (cron_pipeline_main true 2 ⟨0, none, AcqOutcome.raises, fun _ => false,
        fun _ => none, ⟨true, [], fun _ => false, some [], fun _ => 0⟩,
        false, none⟩).1 = 0 ∧
    (0 : Nat) ≠ 1 :=
  ⟨rfl, rfl, by decide⟩

/-- C8 amended: without the run flag the program prints usage and performs
no pipeline action; with the run flag the exit code is 0 both when the full
run succeeds and when a phase aborts the run (aborts are only logged, never
turned into an exit status), and is non-zero only when an exception escapes
run_cron. -/
theorem cli_exit_codes (weeks : Nat) (w : World) (o : RunOutcome)
    (fs : Option CkptFile) (hist : Option HistFile) :
    cron_pipeline_main false weeks w = (0, false, true) ∧
    (run_cron weeks w = some (o, fs, hist) →
      cron_pipeline_main true weeks w = (0, true, false)) ∧
    (run_cron weeks w = none →
      cron_pipeline_main true weeks w = (1, true, false)) := by
  refine ⟨rfl, fun h => ?_, fun h => ?_⟩ <;> simp [cron_pipeline_main, h]

/-- C8 witness: exit 0 for a world whose run aborts at the data phase, and
exit 1 for a world where the training phase raises. -/
theorem cli_exit_codes_witness :
    cron_pipeline_main true 2 ⟨0, none, AcqOutcome.raises, fun _ => false,
      fun _ => none, ⟨true, [], fun _ => false, some [], fun _ => 0⟩,
      false, none⟩ = (0, true, false) ∧
    cron_pipeline_main true 2 ⟨0, none, AcqOutcome.returns (some "x"),
      fun _ => true, fun _ => none, ⟨true, [], fun _ => false, none,
      fun _ => 0⟩, false, none⟩ = (1, true, false) :=
  ⟨(cli_exit_codes 2 ⟨0, none, AcqOutcome.raises, fun _ => false,
      fun _ => none, ⟨true, [], fun _ => false, some [], fun _ => 0⟩,
      false, none⟩ RunOutcome.abortedData
      (some (CkptFile.parsed ⟨some 0, some 0, some "dow", some []⟩))
      none).2.1 rfl,
   (cli_exit_codes 2 ⟨0, none, AcqOutcome.returns (some "x"),
      fun _ => true, fun _ => none, ⟨true, [], fun _ => false, none,
      fun _ => 0⟩, false, none⟩ RunOutcome.completed none none).2.2 rfl⟩

/-- C9: updating the cumulative dataset-path list in a well-formed existing
checkpoint replaces only the dataset_paths field: last_end_date,
last_run_time and index_name are left exactly as they were. -/
theorem update_checkpoint_frame (paths : List String) (d : CkptData) :
    update_checkpoint_dataset_paths paths (some (CkptFile.parsed d)) =
      some (CkptFile.parsed
        ⟨d.last_end_date, d.last_run_time, d.index_name, some paths⟩) := by
  cases d
  rfl

/-- C10: when the acquisition collaborator returns normally but yields a
Python None, an empty path, or a path absent on disk, the phase reports
failure and returns the existing artifact list unchanged, exactly as it
does when the collaborator raises. -/
theorem acquisition_bad_path_fails (pe : String → Bool) (ex : List String)
    (p : Option String)
    (h : p = none ∨ ∃ q, p = some q ∧ (q = "" ∨ pe q = false)) :
    step1_to_3_data_pipeline (AcqOutcome.returns p) pe ex = (false, ex) ∧
    step1_to_3_data_pipeline AcqOutcome.raises pe ex = (false, ex) := by
  rcases h with h | ⟨q, hq, hbad⟩
  · subst h; exact ⟨rfl, rfl⟩
  · subst hq
    refine ⟨?_, rfl⟩
    rcases hbad with h | h
    · subst h; rfl
    · simp [step1_to_3_data_pipeline, h]

/-- C10 witness: a returned path that does not exist on disk is rejected
and leaves the artifact list unchanged, as does a raised exception. -/
theorem acquisition_bad_path_fails_witness :
    step1_to_3_data_pipeline (AcqOutcome.returns (some "x"))
      (fun _ => false) ["a"] = (false, ["a"]) ∧
    step1_to_3_data_pipeline AcqOutcome.raises
      (fun _ => false) ["a"] = (false, ["a"]) :=
  acquisition_bad_path_fails (fun _ => false) ["a"] (some "x")
    (Or.inr ⟨"x", rfl, Or.inr rfl⟩)
